import Mathlib

/-!
Verification of the pagination / retry / identifier-resolution core of the
Webex admin-script repository.  Definitions are shallow embeddings of the
Python sources (groupPy/groupListv02.py, groupPy/groupMemberACD.py,
vmParamsListPy/vm2emEnaDis.py).  Machine integers of the source are modelled
as Nat (all the relevant fields are counts), the float backoff values as
rationals, and the stateful request loops as fuel-indexed recursions where a
result of none means the loop has not returned within the given number of
page requests.
-/

/-- An HTTP response as seen by the retry helpers: its status code, the
parsed Retry-After header (none when the header is absent), and an opaque
body used only to tell responses apart. -/
structure HttpResp where
  status : Nat
  retryAfter : Option ℚ
  body : String
deriving DecidableEq

/-- Membership of the transient set tested by the retry loops:
r.status_code in (429, 502, 503, 504). -/
def transientStatus (s : Nat) : Bool :=
  s == 429 || s == 502 || s == 503 || s == 504

/-- The retry loop shared by backoff_request (groupMemberACD.py, 6 attempts)
and the module-level _get helpers (groupListv02.py and vm2emEnaDis.py, 5
attempts).  The server argument gives the response to the i-th request
(0-based).  Returns the response the Python function returns together with
the list of slept durations, in order.  Python:
backoff = 1.0; for _ in range(n): r = request(...);
if transient: wait = float(headers.get(Retry-After, backoff));
sleep(min(wait, 10.0)); backoff *= 1.6; continue; return r -- and after the
loop, return r.  The base case with zero attempts is never reached from the
entry points below, which start with a positive attempt budget. -/
def backoffLoop (server : Nat → HttpResp) : Nat → Nat → ℚ → HttpResp × List ℚ
  | 0, i, _ => (server i, [])
  | n+1, i, b =>
    let r := server i
    if transientStatus r.status then
      let s := min (r.retryAfter.getD b) 10
      if n = 0 then (r, [s])
      else
        let rest := backoffLoop server n (i+1) (b * (8/5))
        (rest.1, s :: rest.2)
    else (r, [])

/-- backoff_request of groupMemberACD.py: up to 6 attempts, backoff starting
at 1 second.  The float literal 1.6 of the source is modelled as the
rational 8/5. -/
def backoff_request (server : Nat → HttpResp) : HttpResp × List ℚ :=
  backoffLoop server 6 0 1

/-- The _get helper of groupListv02.py (and the identical _get/_put of
vm2emEnaDis.py): the same loop with up to 5 attempts. -/
def _get (server : Nat → HttpResp) : HttpResp × List ℚ :=
  backoffLoop server 5 0 1

/-- Error detail produced by the failure branch of add_member; the response
body that the source appends after the status is not modelled. -/
def addFailMsg (st : Nat) : String :=
  "Add failed (" ++ toString st ++ ")"

/-- Error detail produced by the failure branch of delete_member. -/
def deleteFailMsg (st : Nat) : String :=
  "Delete failed (" ++ toString st ++ ")"

/-- add_member of groupMemberACD.py, as a function of the status code of the
(post-retry) response to the POST /v1/groups/{gid}/members request:
200/201/204 yield (True, Added to group); 409 yields (True, Already a
member); anything else is a failure. -/
def add_member (status : Nat) : Bool × String :=
  if status = 200 ∨ status = 201 ∨ status = 204 then (true, "Added to group")
  else if status = 409 then (true, "Already a member")
  else (false, addFailMsg status)

/-- Python truthiness fallback of the form (x or y) where x decodes an
optional JSON list: an absent key and an empty list both fall through to
the alternative. -/
def pyOr {α : Type} (x : Option (List α)) (y : List α) : List α :=
  match x with
  | some l => if l.isEmpty then y else l
  | none => y

/-- batch = data.get("groups") or data.get("items") or [] from
list_all_groups of groupListv02.py.  A page body is modelled as a map from
container key to the decoded list, none meaning the key is absent or null. -/
def extractGroups (body : String → Option (List String)) : List String :=
  pyOr (body "groups") (pyOr (body "items") [])

/-- members = data.get("members") or data.get("items") or data.get("users")
or [] from is_member and get_group_members. -/
def extractMembers {α : Type} (body : String → Option (List α)) : List α :=
  pyOr (body "members") (pyOr (body "items") (pyOr (body "users") []))

/-- One member entry of a group-members page: the two identifier fields the
source inspects, none meaning the key is absent. -/
structure MemberRec where
  personId : Option String
  id : Option String
deriving DecidableEq

/-- Python (a or b) on two optional strings, as used in
(m.get("personId") or m.get("id")): an absent key and an empty string both
fall through to the second operand. -/
def pyOrS : Option String → Option String → Option String
  | some s, b => if s = "" then b else some s
  | none, b => b

/-- A decoded page of GET /v1/groups as read by list_all_groups: the
container keys of the body plus the three pagination fields, none meaning
the field is absent from the body.  Status handling (401/403 exits the
process, other non-2xx raises) is outside the items-yielded claims and is
not modelled. -/
structure GroupsPage where
  body : String → Option (List String)
  totalResults : Option Nat
  startIndex : Option Nat
  itemsPerPage : Option Nat

/-- A decoded page of GET /v1/groups/{gid}/members as read by is_member:
the post-retry status code, the container keys, and the pagination
fields. -/
structure MembersPage where
  status : Nat
  body : String → Option (List MemberRec)
  totalResults : Option Nat
  startIndex : Option Nat
  itemsPerPage : Option Nat

/-- The while-loop of list_all_groups (groupListv02.py).  The server maps
the requested startIndex to the decoded page.  Fuel bounds the number of
page requests; none means the loop has not returned within that many
requests.  Python per iteration:
batch = groups or items or []; out.extend(batch);
total = int(data.get("totalResults", 0) or 0);
start = int(data.get("startIndex", params["startIndex"]));
per = int(data.get("itemsPerPage", len(batch)) or 0);
if total and per and (start + per) <= total: params["startIndex"] = start + per
else: break. -/
def list_all_groups_loop (server : Nat → GroupsPage) :
    Nat → Nat → List String → Option (List String)
  | 0, _, _ => none
  | fuel+1, reqStart, out =>
    let data := server reqStart
    let batch := extractGroups data.body
    let out2 := out ++ batch
    let total := data.totalResults.getD 0
    let start := data.startIndex.getD reqStart
    let per := data.itemsPerPage.getD batch.length
    if total ≠ 0 ∧ per ≠ 0 ∧ start + per ≤ total then
      list_all_groups_loop server fuel (start + per) out2
    else some out2

/-- list_all_groups starts its loop at startIndex 1 with an empty
accumulator. -/
def list_all_groups (server : Nat → GroupsPage) (fuel : Nat) : Option (List String) :=
  list_all_groups_loop server fuel 1 []

/-- The while-loop of is_member (groupMemberACD.py).  A non-200 status
returns False at once; a page listing the person returns True; otherwise
the pagination check is
total = int(data.get("totalResults", 0) or 0);
per = int(data.get("itemsPerPage", len(members)) or 0);
start = int(data.get("startIndex", params["startIndex"]));
if total and (start + per) <= total: advance else break -- note the absent
per check, in contrast with list_all_groups. -/
def is_member_loop (server : Nat → MembersPage) (pid : String) :
    Nat → Nat → Option Bool
  | 0, _ => none
  | fuel+1, reqStart =>
    let r := server reqStart
    if r.status ≠ 200 then some false
    else
      let members := extractMembers r.body
      if members.any (fun m => pyOrS m.personId m.id = some pid) then some true
      else
        let total := r.totalResults.getD 0
        let per := r.itemsPerPage.getD members.length
        let start := r.startIndex.getD reqStart
        if total ≠ 0 ∧ start + per ≤ total then
          is_member_loop server pid fuel (start + per)
        else some false

/-- is_member starts its loop at startIndex 1. -/
def is_member (server : Nat → MembersPage) (pid : String) (fuel : Nat) : Option Bool :=
  is_member_loop server pid fuel 1

/-- delete_member of groupMemberACD.py, as a function of the status code of
the (post-retry) DELETE response and of the members-listing server consulted
by the is_member fallback on 404.  Python: 200/204 yield (True, Removed from
group); on 404, if not is_member(...) yield (True, Not a member (no-op)),
otherwise fall through to the failure branch; any other status fails.  The
result is none when the inner is_member loop does not return within the
given fuel. -/
def delete_member (deleteStatus : Nat) (listServer : Nat → MembersPage)
    (pid : String) (fuel : Nat) : Option (Bool × String) :=
  if deleteStatus = 200 ∨ deleteStatus = 204 then some (true, "Removed from group")
  else if deleteStatus = 404 then
    match is_member listServer pid fuel with
    | none => none
    | some true => some (false, deleteFailMsg 404)
    | some false => some (true, "Not a member (no-op)")
  else some (false, deleteFailMsg deleteStatus)

/-- One person record of a GET /v1/people?email= response: the id field
(absent keys modelled as none) and the decoded emails list (the source
applies or [] to it, so an absent key is the empty list). -/
structure PersonRec where
  id : Option String
  emails : List String
deriving DecidableEq

/-- Response of GET /v1/people?email=... as read by resolve_person. -/
structure PeopleListResp where
  status : Nat
  items : List PersonRec
deriving DecidableEq

/-- Response of GET /v1/people/{id} as read by get_email_for_person. -/
structure PersonDetail where
  status : Nat
  emails : List String
deriving DecidableEq

/-- The people endpoints used by the resolver, as (post-retry) response
functions. -/
structure PeopleApi where
  byEmail : String → PeopleListResp
  byId : String → PersonDetail

/-- The module-level _PERSON_EMAIL_CACHE of groupMemberACD.py: a dictionary
from person id to email.  Keys are Option String because the source can
insert data[0].get("id") even when that key is absent (a None key in the
Python dictionary).  Insertion is modelled by consing, lookup by first
match, which agrees with dictionary overwrite semantics. -/
def cacheLookup (c : List (Option String × String)) (k : Option String) : Option String :=
  match c with
  | [] => none
  | (k2, v) :: rest => if k2 = k then some v else cacheLookup rest k

/-- Python truthiness of an optional string: None and the empty string are
falsy. -/
def truthyO : Option String → Bool
  | some s => s != ""
  | none => false

/-- get_email_for_person of groupMemberACD.py in explicit-state form.
Returns the email, the cache after the call, and the number of network
lookups the call issued (0 or 1).  Python: empty person_id returns "";
a cached id returns the cached email with no request; otherwise one GET,
and on 200 the first email (or "") is returned and cached only when
non-empty. -/
def get_email_for_person (api : PeopleApi) (cache : List (Option String × String))
    (pid : String) : String × List (Option String × String) × Nat :=
  if pid = "" then ("", cache, 0)
  else
    match cacheLookup cache (some pid) with
    | some e => (e, cache, 0)
    | none =>
      let r := api.byId pid
      if r.status = 200 then
        let email := match r.emails with | [] => "" | e :: _ => e
        if email = "" then (email, cache, 1)
        else (email, (some pid, email) :: cache, 1)
      else ("", cache, 1)

/-- resolve_person of groupMemberACD.py in explicit-state form.  Returns the
(personId, email) pair, the cache after the call, and the number of network
lookups issued.  Python: a truthy person_id short-circuits (filling the
email from get_email_for_person when absent); with only an email it always
issues GET /v1/people?email=..., and on a 200 with a non-empty items list it
returns the first id with its first email (falling back to the searched
email) and stores the id-to-email pair in the cache; every other outcome
returns (None, email). -/
def resolve_person (api : PeopleApi) (cache : List (Option String × String))
    (person_id email : Option String) :
    (Option String × Option String) × List (Option String × String) × Nat :=
  if truthyO person_id then
    if truthyO email then ((person_id, email), cache, 0)
    else
      let r := get_email_for_person api cache (person_id.getD "")
      ((person_id, some r.1), r.2.1, r.2.2)
  else if ¬ truthyO email then ((none, none), cache, 0)
  else
    let e := email.getD ""
    let r := api.byEmail e
    if r.status = 200 then
      match r.items with
      | [] => ((none, email), cache, 1)
      | p :: _ =>
        let found := match p.emails with | [] => e | e2 :: _ => e2
        ((p.id, some found), (p.id, found) :: cache, 1)
    else ((none, email), cache, 1)

/-- One input row of vm2emEnaDis.py as far as the success/failure tally is
concerned: the personid cell (empty means missing, counted as a failure
without any request) and whether the voicemail PUT returned 200/204. -/
structure VmRow where
  personId : String
  updateOk : Bool
deriving DecidableEq

/-- The (ok, fail) counters accumulated by main of vm2emEnaDis.py over the
CSV rows: a missing personid increments fail; otherwise the update result
increments ok or fail.  Readback errors do not touch either counter. -/
def vmTally : List VmRow → Nat × Nat
  | [] => (0, 0)
  | r :: rs =>
    let t := vmTally rs
    if r.personId = "" then (t.1, t.2 + 1)
    else if r.updateOk then (t.1 + 1, t.2) else (t.1, t.2 + 1)

/-- The process exit code of vm2emEnaDis.py main after the row loop:
if fail and ok == 0: sys.exit(1), otherwise the function falls off the end
and the process exits 0. -/
def vmExitCode (rows : List VmRow) : Nat :=
  let t := vmTally rows
  if t.2 ≠ 0 ∧ t.1 = 0 then 1 else 0

/-- Python str.find for a single character, returning -1 when absent. -/
def pyFind : List Char → Char → Int
  | [], _ => -1
  | c :: cs, t =>
    if c = t then 0
    else
      let r := pyFind cs t
      if r < 0 then -1 else r + 1

/-- Python slice l[start:stop] on a character list, with the usual clamping
and negative-index-from-the-end semantics (the source can produce stop = -1
when ">" is absent from a Link part). -/
def pySlice (l : List Char) (start stop : Int) : List Char :=
  let n : Int := l.length
  let s := if start < 0 then max (n + start) 0 else min start n
  let e := if stop < 0 then max (n + stop) 0 else min stop n
  (l.take e.toNat).drop s.toNat

/-- Whether the first list starts the second, comparing characters. -/
def isPrefixL : List Char → List Char → Bool
  | [], _ => true
  | _ :: _, [] => false
  | a :: xs, b :: ys => a == b && isPrefixL xs ys

/-- Python substring containment (needle in hay). -/
def containsSub (needle : List Char) : List Char → Bool
  | [] => isPrefixL needle []
  | c :: rest => isPrefixL needle (c :: rest) || containsSub needle rest

/-- Python str.split(",") on a character list; the empty string splits to
one empty part, matching Python. -/
def splitComma : List Char → List (List Char)
  | [] => [[]]
  | c :: cs =>
    let r := splitComma cs
    if c = ',' then [] :: r
    else
      match r with
      | [] => [[c]]
      | h :: t => (c :: h) :: t

/-- The needle the paginate loop of groupListv02.py searches each Link part
for. -/
def relNextNeedle : List Char := "rel=\"next\"".data

/-- The per-part scan of the paginate loop: the first part containing the
needle yields part[part.find("<") + 1 : part.find(">")]; none when no part
contains it.  Python:
for part in link.split(","):
  if needle in part: start = part.find("<") + 1; end = part.find(">");
  next_url = part[start:end]; break. -/
def findNextUrl : List (List Char) → Option (List Char)
  | [] => none
  | p :: rest =>
    if containsSub relNextNeedle p then
      some (pySlice p (pyFind p '<' + 1) (pyFind p '>'))
    else findNextUrl rest

/-- A decoded page as read by paginate of groupListv02.py: the container
keys of the body (paginate only reads "items") and the raw Link response
header.  The 401/403/raise_for_status paths abort the process and are not
modelled; the query parameters of the first request are carried inside the
URL for the purpose of this model. -/
structure LinkPage where
  body : String → Option (List String)
  link : List Char

/-- items = data.get("items") or [] as read by paginate. -/
def pageItems (pg : LinkPage) : List String :=
  pyOr (pg.body "items") []

/-- The while-loop of paginate (groupListv02.py): fetch the page at the
current URL, yield its items, extract the rel="next" URL from the Link
header, and stop when there is none (Python also stops on an empty
extracted URL, since an empty string is falsy).  Fuel bounds the number of
page requests; none means the loop has not returned within that many
requests. -/
def paginate_loop (server : List Char → LinkPage) :
    Nat → List Char → List String → Option (List String)
  | 0, _, _ => none
  | fuel+1, url, acc =>
    let data := server url
    let acc2 := acc ++ pageItems data
    match findNextUrl (splitComma data.link) with
    | none => some acc2
    | some u => if u.isEmpty then some acc2 else paginate_loop server fuel u acc2

/-- The concatenation of the items of pages start, start+1, ...,
start+n-1. -/
def itemsFrom (pages : Nat → LinkPage) : Nat → Nat → List String
  | _, 0 => []
  | start, n+1 => pageItems (pages start) ++ itemsFrom pages (start+1) (n)

/-- A well-behaved offset/total server holding the collection L with page
size k: the page at 1-based startIndex s carries the items L[s-1 : s-1+k],
echoes s, and reports the usual totalResults and per-page count. -/
def chunkServer (L : List String) (k : Nat) : Nat → GroupsPage := fun s =>
  let batch := (L.drop (s-1)).take k
  { body := fun key => if key = "groups" then some batch else none
    totalResults := some L.length
    startIndex := some s
    itemsPerPage := some batch.length }

/-- A two-page Link-header chain used to exercise paginate on concrete
data: page u0 carries items a, b and a Link header pointing at u1; page u1
carries item c and no Link header. -/
def wUrls : Nat → List Char := fun i => if i = 0 then "u0".data else "u1".data

/-- First page of the concrete Link chain. -/
def wPage0 : LinkPage :=
  { body := fun k => if k = "items" then some ["a", "b"] else none
    link := "<u1>; rel=\"next\"".data }

/-- Second and last page of the concrete Link chain. -/
def wPage1 : LinkPage :=
  { body := fun k => if k = "items" then some ["c"] else none
    link := [] }

/-- The concrete Link-header server. -/
def wLinkServer : List Char → LinkPage := fun u =>
  if u = "u1".data then wPage1 else wPage0

/-- A server that always answers 503 with no Retry-After header. -/
def wTransient : Nat → HttpResp := fun _ => ⟨503, none, ""⟩

/-- A members listing whose single page is empty: 200, no container keys,
totalResults 0. -/
def wNoMembersServer : Nat → MembersPage :=
  fun _ => ⟨200, fun _ => none, some 0, none, none⟩

/-- A members listing that always fails with 500. -/
def wErrListServer : Nat → MembersPage :=
  fun _ => ⟨500, fun _ => none, none, none, none⟩

/-- An empty, well-behaved groups server: every pagination field absent, so
totalResults reads as 0 and startIndex echoes the request. -/
def wEchoGroups : Nat → GroupsPage := fun _ => ⟨fun _ => none, none, none, none⟩

/-- An empty, well-behaved members server reporting one item per page. -/
def wEchoMembers : Nat → MembersPage :=
  fun _ => ⟨200, fun _ => none, none, none, some 1⟩

/-- A groups server that answers every request with the same page: one item,
totalResults 2, startIndex 1, itemsPerPage 1.  Because list_all_groups takes
the next offset from the response rather than from its own request, this
server keeps the loop running forever. -/
def constGroups : Nat → GroupsPage :=
  fun _ => ⟨fun key => if key = "groups" then some ["g"] else none, some 2, some 1, some 1⟩

/-- A members server that answers every request with the same empty page:
totalResults 1, startIndex 1, itemsPerPage 0.  is_member lacks the per check
of list_all_groups, so the guard 1 + 0 <= 1 holds forever. -/
def constMembers : Nat → MembersPage :=
  fun _ => ⟨200, fun _ => none, some 1, some 1, some 0⟩

/-- A people API knowing one person: email a@x resolves to id p1. -/
def cxApi : PeopleApi :=
  { byEmail := fun s => if s = "a@x" then ⟨200, [⟨some "p1", ["a@x"]⟩]⟩ else ⟨404, []⟩
    byId := fun _ => ⟨404, []⟩ }

/-- A two-row vm2emEnaDis input in which the first update succeeds and the
second fails. -/
def cxRows : List VmRow := [⟨"p1", true⟩, ⟨"p2", false⟩]

/-- A page body whose first candidate key is present but empty while the
second is non-empty. -/
def cxBody : String → Option (List String) := fun k =>
  if k = "members" then some [] else if k = "items" then some ["x"] else none

/-- A page body with a non-empty members key. -/
def wBody : String → Option (List String) := fun k =>
  if k = "members" then some ["m1"] else none

/-- A page body with a non-empty groups key. -/
def wBodyG : String → Option (List String) := fun k =>
  if k = "groups" then some ["g1"] else none

/-- A single full-success vm2emEnaDis input row. -/
def wRows : List VmRow := [⟨"p", true⟩]

/-- C8: invoking the group-add operation twice for the same (group, person)
pair yields success both times: the first call, answered with 200/201/204,
reports (True, Added to group); the second call, answered 409 by the server
because the membership already exists, also reports success with the
Already a member detail rather than an error.  Whether the server actually
avoids a duplicate membership is server-side behaviour outside the code;
the code-side content is that 409 is a soft success. -/
theorem c8_group_add_idempotent (s1 : Nat) (h : s1 = 200 ∨ s1 = 201 ∨ s1 = 204) :
    add_member s1 = (true, "Added to group")
    ∧ add_member 409 = (true, "Already a member") := by
  constructor
  · simp only [add_member, if_pos h]
  · rfl

/-- Witness for c8_group_add_idempotent at the concrete pair of statuses
200 and 409. -/
theorem c8_witness :
    add_member 200 = (true, "Added to group")
    ∧ add_member 409 = (true, "Already a member") :=
  c8_group_add_idempotent 200 (Or.inl rfl)

/-- C5 counterexample: a two-row run of vm2emEnaDis.py in which the second
update fails outright (fail = 1) still exits with code 0, because the
source only exits non-zero when fail is non-zero and ok is zero.  This
refutes the claim that at least one failing row forces a non-zero exit. -/
theorem c5_counterexample : (vmTally cxRows).2 = 1 ∧ vmExitCode cxRows = 0 := by
  decide

/-- C5 as amended: vm2emEnaDis.py exits 1 exactly when at least one row
failed and no update succeeded; a run in which every row has a personid and
every update succeeds exits 0.  A partial failure alongside any success
therefore exits 0. -/
theorem c5_exit_code (rows : List VmRow) :
    (vmExitCode rows = 1 ↔ (vmTally rows).2 ≠ 0 ∧ (vmTally rows).1 = 0)
    ∧ ((∀ r ∈ rows, r.personId ≠ "" ∧ r.updateOk = true) → vmExitCode rows = 0) := by
  constructor
  · by_cases h : (vmTally rows).2 ≠ 0 ∧ (vmTally rows).1 = 0 <;> simp [vmExitCode, h]
  · intro hall
    have hfail : ∀ rs : List VmRow,
        (∀ r ∈ rs, r.personId ≠ "" ∧ r.updateOk = true) → (vmTally rs).2 = 0 := by
      intro rs
      induction rs with
      | nil => intro _; rfl
      | cons r t ih =>
        intro h2
        have hr := h2 r (List.mem_cons_self r t)
        have ht := ih (fun x hx => h2 x (List.mem_cons_of_mem _ hx))
        simp [vmTally, hr.1, hr.2, ht]
    simp [vmExitCode, hfail rows hall]

/-- Witness for c5_exit_code at a one-row full-success input. -/
theorem c5_witness :
    vmExitCode wRows = 0
    ∧ (vmExitCode wRows = 1 ↔ (vmTally wRows).2 ≠ 0 ∧ (vmTally wRows).1 = 0) :=
  ⟨(c5_exit_code wRows).2 (by decide), (c5_exit_code wRows).1⟩

/-- C6 counterexample: on a body whose first candidate key (members) is
present with an empty value while the second (items) is non-empty, item
extraction returns the items value, not the value of the first key present.
The Python or-chain skips falsy values, so a present-but-empty key falls
through. -/
theorem c6_counterexample : cxBody "members" = some [] ∧ extractMembers cxBody = ["x"] := by
  decide

/-- C6 as amended: item extraction uses the value of the first candidate key
whose value is a non-empty list; a candidate that is absent, null, or
present with an empty value is skipped; and when every candidate reads as
empty the result is the empty collection.  Stated for the
members/items/users chain of is_member and get_group_members and for the
groups/items chain of list_all_groups. -/
theorem c6_container_key_fallback (body bodyG : String → Option (List String)) :
    (∀ ms, body "members" = some ms → ms ≠ [] → extractMembers body = ms)
    ∧ (∀ is2, (body "members" = none ∨ body "members" = some []) →
        body "items" = some is2 → is2 ≠ [] → extractMembers body = is2)
    ∧ ((body "members").getD [] = [] → (body "items").getD [] = [] →
        (body "users").getD [] = [] → extractMembers body = [])
    ∧ (∀ gs, bodyG "groups" = some gs → gs ≠ [] → extractGroups bodyG = gs) := by
  refine ⟨?_, ?_, ?_, ?_⟩
  · intro ms h hne
    cases ms with
    | nil => exact absurd rfl hne
    | cons a l => simp [extractMembers, pyOr, h]
  · intro is2 hm hi hne
    cases is2 with
    | nil => exact absurd rfl hne
    | cons a l =>
      rcases hm with hm | hm <;> simp [extractMembers, pyOr, hm, hi]
  · intro h1 h2 h3
    cases hm : body "members" <;> cases hi : body "items" <;> cases hu : body "users" <;>
      simp_all [extractMembers, pyOr]
  · intro gs h hne
    cases gs with
    | nil => exact absurd rfl hne
    | cons a l => simp [extractGroups, pyOr, h]

/-- Witness for c6_container_key_fallback on concrete bodies with one
non-empty candidate key each. -/
theorem c6_witness : extractMembers wBody = ["m1"] ∧ extractGroups wBodyG = ["g1"] :=
  ⟨(c6_container_key_fallback wBody wBodyG).1 ["m1"] (by decide) (by decide),
   (c6_container_key_fallback wBody wBodyG).2.2.2 ["g1"] (by decide) (by decide)⟩

/-- C10: when the DELETE returns 404 and the follow-up membership listing
request fails with a non-200 status, is_member returns False at once, so
delete_member reports the Not a member (no-op) success: an unverifiable
membership is treated as non-membership. -/
theorem c10_unverified_membership_noop (listServer : Nat → MembersPage) (pid : String)
    (h : (listServer 1).status ≠ 200) :
    is_member listServer pid 1 = some false
    ∧ delete_member 404 listServer pid 1 = some (true, "Not a member (no-op)") := by
  have h1 : is_member listServer pid 1 = some false := by
    simp [is_member, is_member_loop, h]
  exact ⟨h1, by simp [delete_member, h1]⟩

/-- Witness for c10_unverified_membership_noop at a listing server that
always answers 500. -/
theorem c10_witness :
    is_member wErrListServer "p" 1 = some false
    ∧ delete_member 404 wErrListServer "p" 1 = some (true, "Not a member (no-op)") :=
  c10_unverified_membership_noop wErrListServer "p" (by decide)

/-- C7: removing a person who is not in the group is a successful no-op.
The server answers the DELETE with 404; the (single-page) membership
listing succeeds with 200, none of its entries carries the person as
personId or id, and its pagination fields do not ask for another page;
delete_member then reports (True, Not a member (no-op)) rather than an
error. -/
theorem c7_delete_nonmember_noop (listServer : Nat → MembersPage) (pid : String)
    (h200 : (listServer 1).status = 200)
    (habs : ∀ m ∈ extractMembers (listServer 1).body, ¬ pyOrS m.personId m.id = some pid)
    (hone : ¬ ((listServer 1).totalResults.getD 0 ≠ 0 ∧
        (listServer 1).startIndex.getD 1
          + (listServer 1).itemsPerPage.getD (extractMembers (listServer 1).body).length
          ≤ (listServer 1).totalResults.getD 0)) :
    is_member listServer pid 1 = some false
    ∧ delete_member 404 listServer pid 1 = some (true, "Not a member (no-op)") := by
  have hany : (extractMembers (listServer 1).body).any
      (fun m => pyOrS m.personId m.id = some pid) = false := by
    simp only [List.any_eq_false, decide_eq_true_eq]
    exact habs
  have h1 : is_member listServer pid 1 = some false := by
    simp [is_member, is_member_loop, h200, hany, hone]
  exact ⟨h1, by simp [delete_member, h1]⟩

/-- Witness for c7_delete_nonmember_noop at a one-page empty listing. -/
theorem c7_witness :
    is_member wNoMembersServer "p" 1 = some false
    ∧ delete_member 404 wNoMembersServer "p" 1 = some (true, "Not a member (no-op)") :=
  c7_delete_nonmember_noop wNoMembersServer "p" (by decide) (by decide) (by decide)

/-- C4: on a response sequence that is transient throughout (any mix of
429, 502, 503, 504), backoff_request issues exactly its bound of 6 attempts
(sleeping after each, hence 6 slept durations) and then returns the 6th
response unchanged to the caller; the 5-attempt _get helper likewise
returns its 5th response.  Both are total functions here: the source
returns the last response rather than raising. -/
theorem c4_retry_exhaustion_returns_last (server : Nat → HttpResp)
    (h6 : ∀ i ∈ List.range 6, transientStatus (server i).status = true) :
    (backoff_request server).1 = server 5 ∧ (backoff_request server).2.length = 6
    ∧ (_get server).1 = server 4 ∧ (_get server).2.length = 5 := by
  have t0 := h6 0 (by decide)
  have t1 := h6 1 (by decide)
  have t2 := h6 2 (by decide)
  have t3 := h6 3 (by decide)
  have t4 := h6 4 (by decide)
  have t5 := h6 5 (by decide)
  refine ⟨?_, ?_, ?_, ?_⟩ <;>
    simp [backoff_request, _get, backoffLoop, t0, t1, t2, t3, t4, t5]

/-- Witness for c4_retry_exhaustion_returns_last at an always-503 server. -/
theorem c4_witness :
    (backoff_request wTransient).1 = wTransient 5 ∧ (backoff_request wTransient).2.length = 6
    ∧ (_get wTransient).1 = wTransient 4 ∧ (_get wTransient).2.length = 5 :=
  c4_retry_exhaustion_returns_last wTransient (by decide)

/-- C3: on the response sequence [503, 503, 200], backoff_request returns
the 200 response after exactly two slept durations.  Each duration is
min(hint, 10) when the Retry-After hint is present, else min(backoff, 10)
with the backoff sequence 1, 1 * 8/5, so the two sleeps are
min(hint1 or 1, 10) and min(hint2 or 8/5, 10); either way a sleep never
exceeds the 10-second cap.  The float constants 1.6 and 10.0 of the source
are modelled as the rationals 8/5 and 10. -/
theorem c3_backoff_503_503_200 (h1 h2 h3 : Option ℚ) (b1 b2 b3 : String) :
    backoff_request (fun i =>
        if i = 0 then ⟨503, h1, b1⟩ else if i = 1 then ⟨503, h2, b2⟩ else ⟨200, h3, b3⟩)
      = (⟨200, h3, b3⟩, [min (h1.getD 1) 10, min (h2.getD (8/5)) 10])
    ∧ min (h1.getD 1) 10 ≤ 10 ∧ min (h2.getD (8/5)) 10 ≤ 10 := by
  refine ⟨?_, min_le_right _ _, min_le_right _ _⟩
  have ht : transientStatus 503 = true := by decide
  have hf : transientStatus 200 = false := by decide
  simp [backoff_request, backoffLoop, ht, hf, one_mul]

/-- Witness for c3_backoff_503_503_200 at concrete hints: the first 503
carries Retry-After 2, the second carries no hint. -/
theorem c3_witness :
    backoff_request (fun i =>
        if i = 0 then ⟨503, some 2, "x"⟩ else if i = 1 then ⟨503, none, "y"⟩ else ⟨200, none, "ok"⟩)
      = (⟨200, none, "ok"⟩, [min ((some (2 : ℚ)).getD 1) 10, min ((none : Option ℚ).getD (8/5)) 10])
    ∧ min ((some (2 : ℚ)).getD 1) 10 ≤ 10 ∧ min ((none : Option ℚ).getD (8/5)) 10 ≤ 10 :=
  c3_backoff_503_503_200 (some 2) none none "x" "y" "ok"

/-- C2 counterexample: with an API that resolves a@x to person p1,
resolving the same e-mail twice from a fresh cache issues two network
lookups, not one — resolve_person never consults the cache on the e-mail
path — and after the first successful resolution the e-mail is not a key of
the cache (only the returned person id is). -/
theorem c2_counterexample :
    (resolve_person cxApi [] none (some "a@x")).2.2
      + (resolve_person cxApi (resolve_person cxApi [] none (some "a@x")).2.1
          none (some "a@x")).2.2 = 2
    ∧ cacheLookup (resolve_person cxApi [] none (some "a@x")).2.1 (some "a@x") = none := by
  decide

/-- C2 as amended: a successful resolution by e-mail issues one lookup and
caches only the returned person id as a key, mapping it to the resolved
e-mail; a subsequent id-to-email lookup for that person is served from the
memoization table with no network lookup; but resolving the same e-mail a
second time issues another network lookup, because no e-mail-keyed cache
exists. -/
theorem c2_resolver_cache (api : PeopleApi) (e q : String) (p : PersonRec)
    (rest : List PersonRec) (he : e ≠ "") (hq : q ≠ "")
    (h200 : (api.byEmail e).status = 200)
    (hitems : (api.byEmail e).items = p :: rest)
    (hid : p.id = some q) :
    (resolve_person api [] none (some e)).2.2 = 1
    ∧ (resolve_person api [] none (some e)).1
        = (some q, some (match p.emails with | [] => e | e2 :: _ => e2))
    ∧ (get_email_for_person api (resolve_person api [] none (some e)).2.1 q).2.2 = 0
    ∧ (get_email_for_person api (resolve_person api [] none (some e)).2.1 q).1
        = (match p.emails with | [] => e | e2 :: _ => e2)
    ∧ (resolve_person api (resolve_person api [] none (some e)).2.1 none (some e)).2.2 = 1 := by
  have hr : resolve_person api [] none (some e)
      = ((some q, some (match p.emails with | [] => e | e2 :: _ => e2)),
         [(some q, (match p.emails with | [] => e | e2 :: _ => e2))], 1) := by
    simp [resolve_person, truthyO, he, h200, hitems, hid]
  refine ⟨by rw [hr], by rw [hr], ?_, ?_, ?_⟩
  · rw [hr]
    simp [get_email_for_person, cacheLookup, hq]
  · rw [hr]
    simp [get_email_for_person, cacheLookup, hq]
  · rw [hr]
    simp [resolve_person, truthyO, he, h200, hitems, hid]

/-- Witness for c2_resolver_cache at the concrete API resolving a@x to
p1. -/
theorem c2_witness :
    (resolve_person cxApi [] none (some "a@x")).2.2 = 1
    ∧ (resolve_person cxApi [] none (some "a@x")).1 = (some "p1", some "a@x")
    ∧ (get_email_for_person cxApi (resolve_person cxApi [] none (some "a@x")).2.1 "p1").2.2 = 0
    ∧ (get_email_for_person cxApi (resolve_person cxApi [] none (some "a@x")).2.1 "p1").1 = "a@x"
    ∧ (resolve_person cxApi (resolve_person cxApi [] none (some "a@x")).2.1
        none (some "a@x")).2.2 = 1 :=
  c2_resolver_cache cxApi "a@x" "p1" ⟨some "p1", ["a@x"]⟩ []
    (by decide) (by decide) (by decide) (by decide) (by decide)

/-- When no part of a Link header contains the rel-next needle, the scan
yields no continuation URL. -/
theorem findNextUrl_none (parts : List (List Char))
    (h : ∀ part ∈ parts, containsSub relNextNeedle part = false) :
    findNextUrl parts = none := by
  induction parts with
  | nil => rfl
  | cons p rest ih =>
    have hp := h p (List.mem_cons_self p rest)
    simp only [findNextUrl, hp, Bool.false_eq_true, if_false]
    exact ih (fun x hx => h x (List.mem_cons_of_mem _ hx))

/-- The paginate loop walks a chain of P pages linked by parsed rel-next
URLs and returns the concatenation of their items, starting anywhere in the
chain. -/
theorem paginate_chain (server : List Char → LinkPage) (urls : Nat → List Char) (P : Nat)
    (hnext : ∀ i ∈ List.range (P-1),
      findNextUrl (splitComma (server (urls i)).link) = some (urls (i+1))
        ∧ urls (i+1) ≠ [])
    (hlast : ∀ part ∈ splitComma (server (urls (P-1))).link,
      containsSub relNextNeedle part = false) :
    ∀ n start acc, 1 ≤ n → start + n = P →
      paginate_loop server n (urls start) acc
        = some (acc ++ itemsFrom (fun i => server (urls i)) start n) := by
  intro n
  induction n with
  | zero => intro start acc h0 _; exact absurd h0 (by omega)
  | succ m ih =>
    intro start acc _ hsum
    by_cases hm : m = 0
    · subst hm
      have hstart : start = P - 1 := by omega
      have hnone : findNextUrl (splitComma (server (urls start)).link) = none := by
        rw [hstart]; exact findNextUrl_none _ hlast
      simp [paginate_loop, hnone, itemsFrom]
    · have hi : start ∈ List.range (P - 1) := List.mem_range.mpr (by omega)
      obtain ⟨hfind, hne⟩ := hnext start hi
      have hie : (urls (start+1)).isEmpty = false := by
        cases hc : urls (start+1) with
        | nil => exact absurd hc hne
        | cons a l => rfl
      have hrec := ih (start+1) (acc ++ pageItems (server (urls start)))
        (by omega) (by omega)
      simp [paginate_loop, hfind, hie, hrec, itemsFrom, List.append_assoc]

/-- The batch extracted from a chunkServer page is exactly the k-item slice
at the requested offset. -/
theorem chunk_extract (L : List String) (k s : Nat) :
    extractGroups (chunkServer L k s).body = (L.drop (s-1)).take k := by
  cases hE : (L.drop (s-1)).take k with
  | nil => simp [chunkServer, extractGroups, pyOr, hE]
  | cons a l => simp [chunkServer, extractGroups, pyOr, hE]

/-- totalResults of a chunkServer page. -/
theorem chunk_total (L : List String) (k s : Nat) :
    (chunkServer L k s).totalResults = some L.length := rfl

/-- startIndex of a chunkServer page. -/
theorem chunk_start (L : List String) (k s : Nat) :
    (chunkServer L k s).startIndex = some s := rfl

/-- itemsPerPage of a chunkServer page. -/
theorem chunk_per (L : List String) (k s : Nat) :
    (chunkServer L k s).itemsPerPage = some ((L.drop (s-1)).take k).length := rfl

/-- On a well-behaved chunked server, the list_all_groups loop started at a
1-based offset s collects exactly the remaining items L[s-1:]. -/
theorem chunk_loop (L : List String) (k : Nat) (hk : 1 ≤ k) :
    ∀ fuel s acc, 1 ≤ fuel → 1 ≤ s → L.length + 2 ≤ fuel + s →
      list_all_groups_loop (chunkServer L k) fuel s acc = some (acc ++ L.drop (s-1)) := by
  intro fuel
  induction fuel with
  | zero => intro s acc h0 _ _; exact absurd h0 (by omega)
  | succ f ih =>
    intro s acc _ hs hbound
    have hXlen : (L.drop (s-1)).length = L.length - (s-1) := List.length_drop _ _
    have hper : ((L.drop (s-1)).take k).length = min k (L.drop (s-1)).length :=
      List.length_take _ _
    have hstep : list_all_groups_loop (chunkServer L k) (f+1) s acc
        = (if L.length ≠ 0 ∧ ((L.drop (s-1)).take k).length ≠ 0
              ∧ s + ((L.drop (s-1)).take k).length ≤ L.length
           then list_all_groups_loop (chunkServer L k) f
              (s + ((L.drop (s-1)).take k).length) (acc ++ (L.drop (s-1)).take k)
           else some (acc ++ (L.drop (s-1)).take k)) := by
      simp only [list_all_groups_loop, chunk_extract, chunk_total, chunk_start, chunk_per,
        Option.getD_some]
    rw [hstep]
    by_cases hg : L.length ≠ 0 ∧ ((L.drop (s-1)).take k).length ≠ 0
        ∧ s + ((L.drop (s-1)).take k).length ≤ L.length
    · rw [if_pos hg]
      obtain ⟨hL0, hp0, hsp⟩ := hg
      have hperk : ((L.drop (s-1)).take k).length = k := by
        rcases Nat.lt_or_ge k (L.drop (s-1)).length with hlt | hge2
        · rw [hper]; exact min_eq_left (le_of_lt hlt)
        · exfalso
          have hpx : ((L.drop (s-1)).take k).length = (L.drop (s-1)).length := by
            rw [hper]; exact min_eq_right hge2
          rw [hpx, hXlen] at hsp hp0
          omega
      rw [ih (s + ((L.drop (s-1)).take k).length) (acc ++ (L.drop (s-1)).take k)
        (by omega) (by omega) (by omega)]
      rw [hperk]
      congr 1
      rw [List.append_assoc]
      congr 1
      have harith : s + k - 1 = (s - 1) + k := by omega
      rw [harith, List.drop_take_append_drop]
    · rw [if_neg hg]
      have htake : (L.drop (s-1)).take k = L.drop (s-1) := by
        rcases Nat.lt_or_ge k (L.drop (s-1)).length with hlt | hge2
        · exfalso
          apply hg
          have hpk : ((L.drop (s-1)).take k).length = k := by
            rw [hper]; exact min_eq_left (le_of_lt hlt)
          rw [hXlen] at hlt
          exact ⟨by omega, by rw [hpk]; omega, by rw [hpk]; omega⟩
        · exact List.take_of_length_le hge2
      rw [htake]

/-- C1: the Paged Fetcher yields every item of the collection and stops at
the first page without a continuation signal, for both protocols.
Link-header loop (paginate of groupListv02.py): for any chain of P pages in
which each of the first P-1 Link headers parses to the (non-empty) URL of
the following page and the last header has no part containing the rel-next
marker, the loop returns within P requests the concatenation of the items
of the P pages, hence exactly N items.  Offset/total loop
(list_all_groups): for any collection L and page size k >= 1, a server
serving the 1-based slices of L with their totalResults and per-page counts
makes the loop return exactly L; the loop advances to startIndex + per
precisely while startIndex + itemsPerPage <= totalResults holds (with the
extra non-zero checks of the source) and stops at the page where the sum
exceeds the total. -/
theorem c1_paged_fetcher_yields_all (server : List Char → LinkPage) (urls : Nat → List Char)
    (P : Nat) (hP : 1 ≤ P)
    (hnext : ∀ i ∈ List.range (P-1),
      findNextUrl (splitComma (server (urls i)).link) = some (urls (i+1))
        ∧ urls (i+1) ≠ [])
    (hlast : ∀ part ∈ splitComma (server (urls (P-1))).link,
      containsSub relNextNeedle part = false)
    (L : List String) (k : Nat) (hk : 1 ≤ k) :
    paginate_loop server P (urls 0) [] = some (itemsFrom (fun i => server (urls i)) 0 P)
    ∧ list_all_groups (chunkServer L k) (L.length + 2) = some L := by
  constructor
  · simpa using paginate_chain server urls P hnext hlast P 0 [] hP (by omega)
  · simpa [list_all_groups] using
      chunk_loop L k hk (L.length + 2) 1 [] (by omega) (by omega) (by omega)

/-- Witness for c1_paged_fetcher_yields_all: the concrete two-page Link
chain with items a, b, c, and the three-item collection x, y, z served in
pages of two. -/
theorem c1_witness :
    paginate_loop wLinkServer 2 (wUrls 0) [] = some ["a", "b", "c"]
    ∧ list_all_groups (chunkServer ["x", "y", "z"] 2) 5 = some ["x", "y", "z"] := by
  have h := c1_paged_fetcher_yields_all wLinkServer wUrls 2 (by decide) (by decide) (by decide)
    ["x", "y", "z"] 2 (by decide)
  exact ⟨h.1.trans (by decide), h.2⟩

/-- Against the constant groups page (totalResults 2, startIndex 1,
itemsPerPage 1), the list_all_groups loop never returns: the guard
1 + 1 <= 2 holds at every page because the offset is read back from the
response. -/
theorem constGroups_loop_none :
    ∀ fuel s acc, list_all_groups_loop constGroups fuel s acc = none := by
  intro fuel
  induction fuel with
  | zero => intro s acc; rfl
  | succ f ih =>
    intro s acc
    have hstep : list_all_groups_loop constGroups (f+1) s acc
        = list_all_groups_loop constGroups f 2 (acc ++ ["g"]) := by
      simp [list_all_groups_loop, constGroups, extractGroups, pyOr]
    rw [hstep]
    exact ih _ _

/-- Against the constant members page (totalResults 1, startIndex 1,
itemsPerPage 0), the is_member loop never returns: with no per check the
guard 1 + 0 <= 1 holds at every page. -/
theorem constMembers_loop_none :
    ∀ fuel s, is_member_loop constMembers "p" fuel s = none := by
  intro fuel
  induction fuel with
  | zero => intro s; rfl
  | succ f ih =>
    intro s
    have hstep : is_member_loop constMembers "p" (f+1) s
        = is_member_loop constMembers "p" f 1 := by
      simp [is_member_loop, constMembers, extractMembers, pyOr]
    rw [hstep]
    exact ih _

/-- C9 counterexample: there are finite field assignments under which the
offset/total loops do not issue finitely many requests.  Both loops read
the next offset (and the total) from the response body, so a server that
answers every request with the same page keeps either loop running for
ever: no amount of fuel makes list_all_groups_loop return against
constGroups, nor is_member_loop against constMembers. -/
theorem c9_counterexample :
    ¬ (∃ fuel, list_all_groups_loop constGroups fuel 1 [] ≠ none)
    ∧ ¬ (∃ fuel, is_member_loop constMembers "p" fuel 1 ≠ none) := by
  constructor
  · rintro ⟨fuel, h⟩
    exact h (constGroups_loop_none fuel 1 [])
  · rintro ⟨fuel, h⟩
    exact h (constMembers_loop_none fuel 1)

/-- When every response echoes the requested startIndex (or omits it) and
reports one fixed totalResults T, the list_all_groups loop returns within
T + 2 page requests: the per check of its guard stops it when a page
reports zero itemsPerPage, and otherwise the offset grows by at least one
per page while remaining at most T. -/
theorem groups_loop_term (server : Nat → GroupsPage) (T : Nat)
    (hstart : ∀ s, (server s).startIndex.getD s = s)
    (htot : ∀ s, (server s).totalResults.getD 0 = T) :
    ∀ fuel s acc, 1 ≤ fuel → T + 2 ≤ fuel + s →
      list_all_groups_loop server fuel s acc ≠ none := by
  intro fuel
  induction fuel with
  | zero => intro s acc h0 _; exact absurd h0 (by omega)
  | succ f ih =>
    intro s acc _ hbound
    simp only [list_all_groups_loop]
    split
    · next hg =>
      rw [hstart s]
      rw [hstart s, htot s] at hg
      exact ih _ _ (by omega) (by omega)
    · simp

/-- The analogue for is_member needs every page to report a positive
per-page count (or carry at least one member), since its guard lacks the
per check. -/
theorem member_loop_term (server : Nat → MembersPage) (pid : String) (U : Nat)
    (hstart : ∀ s, (server s).startIndex.getD s = s)
    (htot : ∀ s, (server s).totalResults.getD 0 = U)
    (hper : ∀ s, 1 ≤ (server s).itemsPerPage.getD (extractMembers (server s).body).length) :
    ∀ fuel s, 1 ≤ fuel → U + 2 ≤ fuel + s →
      is_member_loop server pid fuel s ≠ none := by
  intro fuel
  induction fuel with
  | zero => intro s h0 _; exact absurd h0 (by omega)
  | succ f ih =>
    intro s _ hbound
    simp only [is_member_loop]
    split
    · simp
    · split
      · simp
      · split
        · next hg =>
          rw [hstart s]
          rw [hstart s, htot s] at hg
          have hp := hper s
          exact ih _ (by omega) (by omega)
        · simp

/-- C9 as amended: the offset/total loops terminate for well-behaved
servers — every response echoing (or omitting) the requested startIndex and
reporting one fixed totalResults, plus, for is_member only, a positive
per-page count — with at most totalResults + 2 page requests; without these
conditions the loops can run forever, as c9_counterexample shows. -/
theorem c9_echoing_pagination_terminates (gServer : Nat → GroupsPage)
    (mServer : Nat → MembersPage) (pid : String) (T U : Nat)
    (hgs : ∀ s, (gServer s).startIndex.getD s = s)
    (hgt : ∀ s, (gServer s).totalResults.getD 0 = T)
    (hms : ∀ s, (mServer s).startIndex.getD s = s)
    (hmt : ∀ s, (mServer s).totalResults.getD 0 = U)
    (hmp : ∀ s, 1 ≤ (mServer s).itemsPerPage.getD (extractMembers (mServer s).body).length) :
    list_all_groups gServer (T + 2) ≠ none ∧ is_member mServer pid (U + 2) ≠ none := by
  constructor
  · exact groups_loop_term gServer T hgs hgt (T + 2) 1 [] (by omega) (by omega)
  · exact member_loop_term mServer pid U hms hmt hmp (U + 2) 1 (by omega) (by omega)

/-- Witness for c9_echoing_pagination_terminates at the empty echoing
servers with totalResults 0. -/
theorem c9_witness :
    list_all_groups wEchoGroups 2 ≠ none ∧ is_member wEchoMembers "p" 2 ≠ none :=
  c9_echoing_pagination_terminates wEchoGroups wEchoMembers "p" 0 0
    (fun _ => rfl) (fun _ => rfl) (fun _ => rfl) (fun _ => rfl) (fun _ => Nat.le_refl 1)
